import Mathlib

/-!
# TrinityEnablerLinux: the XDFP encoder and the configuration sequence

A shallow embedding of `src/main.c`.  Machine integers are `Nat`/`Int`; the
USB library is an explicit parameter (`Libusb`), and everything the program
does to the outside world is recorded in a `World` value that is threaded
through the functions.
-/

namespace TrinityEnabler

/-! ## Constants (`main.c` lines 29-45) -/

def V8_WRITE_START_ADDR : Nat := 0xb042
def V8_PLUGIN_START_ADDR : Nat := 0x8120
def XDFP_STARTING_EQ_ADDR : Nat := 0x50
def EQ_TABLE_SIZE : Nat := 16
def kMicronasSetMemReq : Nat := 4
def kMicronasGetMemReq : Nat := 5136

/-- The enumeration `TrinityAvailablePower`; a C enumeration is an integer, so a
value outside the five enumerators is representable. -/
abbrev TrinityAvailablePower := Nat

def POWER_NULL : TrinityAvailablePower := 0
def POWER_500MA : TrinityAvailablePower := 1
def POWER_1500MA : TrinityAvailablePower := 2
def POWER_3000MA : TrinityAvailablePower := 3
def POWER_4000MA : TrinityAvailablePower := 4

/-- Exit codes of `stdlib.h`. -/
def EXIT_SUCCESS : Int := 0
def EXIT_FAILURE : Int := 1

/-- Request-type bits of `libusb.h`. -/
def LIBUSB_REQUEST_TYPE_VENDOR : Nat := 0x40
def LIBUSB_RECIPIENT_DEVICE : Nat := 0x00
def LIBUSB_ENDPOINT_OUT : Nat := 0x00

/-! ## Tables (`main.c` lines 47-99) -/

def power4AEQSettings : List Int :=
  [ 228, -129968, 130513,
    -279, -125942, 128415,
    -1689, -123355, 126686,
    -5136, -95891, 109553,
    -18995, -993, 6924,
    -45000 ]

def power3AEQSettings : List Int :=
  [ 228, -129968, 130513,
    -279, -125942, 128415,
    -1689, -123355, 126686,
    -5137, -95891, 109553,
    -18995, -993, 6924,
    -42000 ]

def power1500mAEQSettings : List Int :=
  [ 228, -129968, 130513,
    -279, -125942, 128415,
    -1689, -123355, 126686,
    -5137, -95891, 109553,
    -18995, -993, 6924,
    -20000 ]

def power500mAEQSettings : List Int :=
  [ 228, -129968, 130513,
    -279, -125942, 128415,
    -1689, -123355, 126686,
    -5137, -95891, 109553,
    -18995, -993, 6924,
    -8000 ]

def pluginBinary : List Nat :=
  [ 0xBF, 0x35, 0x81, 0xBA, 0x85, 0xEA, 0x7B, 0x80, 0xE1, 0x13, 0xBF, 0xDE, 0x0B, 0x8D, 0xB9, 0x85,
    0xBF, 0x1A, 0x0C, 0x8D, 0xB9, 0xE9, 0xF3, 0x81, 0xE8, 0x80, 0x80, 0x79, 0x90, 0x03, 0xBC, 0xEC,
    0x81, 0xEA, 0xA2, 0xB0, 0xE4, 0x00, 0xE5, 0x02, 0x44, 0x99, 0x01, 0x45, 0x15, 0x71, 0x14, 0x19,
    0x90, 0xF6, 0xE0, 0xF0, 0xC8, 0x87, 0x80, 0xC8, 0x51, 0xB0, 0x12, 0x63, 0x90, 0x03, 0x28, 0x98,
    0x02, 0xE0, 0x40, 0xC8, 0x89, 0x80, 0xC8, 0xA0, 0xB0, 0xE1, 0xFB, 0x12, 0x21, 0xC8, 0x88, 0x80,
    0xE8, 0x80, 0x80, 0x90, 0x09, 0xE8, 0x01, 0xA0, 0xC8, 0x80, 0x80, 0xBF, 0x2F, 0x81, 0xE8, 0x80,
    0x80, 0xC8, 0xF3, 0x81, 0xE1, 0x0C, 0x12, 0x21, 0x90, 0x25, 0xE9, 0xED, 0x81, 0xE8, 0x7B, 0x80,
    0x59, 0x49, 0x74, 0xE9, 0xF0, 0x81, 0xE2, 0x80, 0x2A, 0x73, 0x11, 0x2A, 0x7B, 0x99, 0x0A, 0xE8,
    0xF1, 0x81, 0x00, 0xC8, 0xF1, 0x81, 0xCC, 0x7B, 0x80, 0xE8, 0xEE, 0x81, 0xBC, 0xDA, 0x81, 0xE8,
    0xF2, 0x81, 0x90, 0x29, 0xE9, 0x7B, 0x80, 0xE8, 0xED, 0x81, 0x51, 0x72, 0xE8, 0xF1, 0x81, 0x98,
    0x16, 0x40, 0xC8, 0xF1, 0x81, 0x12, 0xE1, 0x80, 0x29, 0xE1, 0xB0, 0x79, 0x99, 0x04, 0x12, 0xBC,
    0xD4, 0x81, 0xE0, 0x30, 0xC8, 0x7B, 0x80, 0xE8, 0xEF, 0x81, 0xC8, 0xF2, 0x81, 0xE8, 0xF2, 0x81,
    0x90, 0x03, 0xBC, 0x24, 0x81, 0x40, 0xC8, 0xF2, 0x81, 0xBC, 0x24, 0x81, 0xB9, 0x01, 0x08, 0x0F,
    0xD0, 0x01, 0x01, 0x01 ]

def disableplugin_value : Nat := 0xba

/-! ## The outside world -/

/-- One call of `libusb_control_transfer`.  `data` holds the bytes of the C
object the buffer pointer points into, from the pointer to the end of that
object; `wLength` is the number of bytes the call is asked to send. -/
structure ControlTransfer where
  bmRequestType : Nat
  bRequest : Nat
  wValue : Nat
  wIndex : Nat
  data : List Nat
  wLength : Nat
  timeout : Nat
  deriving DecidableEq, Repr

/-- The bytes a transfer reads from its buffer: byte `i` for `i < wLength`,
`none` where the read runs past the end of the object. -/
def ControlTransfer.payload (t : ControlTransfer) : List (Option Nat) :=
  (List.range t.wLength).map (fun i => t.data[i]?)

/-- Calls of the USB library other than control transfers. -/
inductive LibusbCall where
  | init
  | open_device_with_vid_pid (vid pid : Nat)
  | close
  | release_interface (interfaceNumber : Nat)
  | exit
  deriving DecidableEq, Repr

/-- The USB library and the device behind it, as the program sees them:
the result of a control transfer (it may depend on the transfers issued
before), the name of an error code, and whether the device is found. -/
structure Libusb where
  control_transfer : List ControlTransfer → ControlTransfer → Int
  error_name : Int → String
  deviceFound : Bool

/-- Everything the program has done so far, oldest first. -/
structure World where
  transfers : List ControlTransfer
  stdout : List String
  stderr : List String
  libusb : List LibusbCall
  deriving DecidableEq, Repr

def World.empty : World := ⟨[], [], [], []⟩

def World.print (w : World) (s : String) : World :=
  { w with stdout := w.stdout ++ [s] }

def World.eprint (w : World) (s : String) : World :=
  { w with stderr := w.stderr ++ [s] }

def World.call (w : World) (c : LibusbCall) : World :=
  { w with libusb := w.libusb ++ [c] }

/-! ## The program (`main.c` lines 101-245) -/

/-- Conversion of an `int` to `uint8_t`. -/
def toUInt8 (x : Int) : Nat := (x % 256).toNat

/-- Conversion to `uint16_t`. -/
def toUInt16 (x : Nat) : Nat := x % 65536

/-- The transfer `xdfpSetMem` asks for (lines 104-113). -/
def setMemTransfer (buf : List Nat) (length xdfpAddr : Nat) : ControlTransfer :=
  { bmRequestType := LIBUSB_REQUEST_TYPE_VENDOR ||| LIBUSB_RECIPIENT_DEVICE ||| LIBUSB_ENDPOINT_OUT
    bRequest := kMicronasSetMemReq
    wValue := 0
    wIndex := xdfpAddr
    data := buf
    wLength := length
    timeout := 100 }

/-- Lines 101-119. -/
def xdfpSetMem (usb : Libusb) (w : World) (buf : List Nat) (length xdfpAddr : Nat) :
    Int × World :=
  let t := setMemTransfer buf length xdfpAddr
  let ret := usb.control_transfer w.transfers t
  let w1 := { w with transfers := w.transfers ++ [t] }
  let w2 :=
    if ret < 0 then
      w1.eprint ("xdfpSetMem: libusb_control_transfer error " ++ usb.error_name ret ++ "\n")
    else w1
  (0, w2)

/-- Line 124: the value after `if (value < 0) value += 0x40000;`. -/
def xdfpValue (value : Int) : Int :=
  if value < 0 then value + 0x40000 else value

/-- Lines 122-129: the five bytes of `xdfpData`. -/
def xdfpData (xdfpAddr : Nat) (value : Int) : List Nat :=
  let value := xdfpValue value
  [ toUInt8 (Int.land (value >>> (10 : Nat)) 0xff),
    toUInt8 (Int.land (value >>> (2 : Nat)) 0xff),
    toUInt8 (Int.land value 0x03),
    (xdfpAddr >>> 8) &&& 0x03,
    xdfpAddr &&& 0xff ]

/-- Lines 121-132. -/
def xdfpWrite (usb : Libusb) (w : World) (xdfpAddr : Nat) (value : Int) : Int × World :=
  xdfpSetMem usb w (xdfpData xdfpAddr value) 5 V8_WRITE_START_ADDR

/-- Lines 137-151: the table the `switch` selects. -/
def eqSettings (availablePower : TrinityAvailablePower) : List Int :=
  if availablePower = POWER_4000MA then power4AEQSettings
  else if availablePower = POWER_3000MA then power3AEQSettings
  else if availablePower = POWER_1500MA then power1500mAEQSettings
  else power500mAEQSettings

/-- Lines 156-161: the `for` loop, entered at its condition with the current
`eqIndex`, `xdfpAddr` and `ret`. -/
def downloadEQLoop (usb : Libusb) (table : List Int) (eqIndex xdfpAddr : Nat) (ret : Int)
    (w : World) : Int × World :=
  if eqIndex < EQ_TABLE_SIZE then
    let r := xdfpWrite usb w xdfpAddr (table.getD eqIndex 0)
    if r.1 ≠ 0 then r
    else downloadEQLoop usb table (eqIndex + 1) (toUInt16 (xdfpAddr + 1)) r.1 r.2
  else (ret, w)
termination_by EQ_TABLE_SIZE - eqIndex

/-- Lines 134-164.  `ret` is declared without a value; the loop body runs
at least once and assigns it before it is read, so the `0` given here is never
returned (`downloadEQLoop_ret`). -/
def downloadEQ (usb : Libusb) (w : World) (availablePower : TrinityAvailablePower) :
    Int × World :=
  downloadEQLoop usb (eqSettings availablePower) 0 XDFP_STARTING_EQ_ADDR 0 w

/-- Lines 166-168. -/
def disablePlugin (usb : Libusb) (w : World) : Int × World :=
  xdfpSetMem usb w [disableplugin_value] 1 V8_PLUGIN_START_ADDR

/-- Lines 170-172. -/
def enablePlugin (usb : Libusb) (w : World) : Int × World :=
  xdfpSetMem usb w pluginBinary 1 V8_PLUGIN_START_ADDR

/-- Lines 174-176: the buffer starts at `&pluginBinary[1]`, the length is
`sizeof(pluginBinary)`. -/
def downloadPlugin (usb : Libusb) (w : World) : Int × World :=
  xdfpSetMem usb w (pluginBinary.drop 1) (toUInt16 pluginBinary.length)
    (toUInt16 (V8_PLUGIN_START_ADDR + 1))

/-- Lines 182-194: the body of the argument loop for one `argv[i]`. -/
def parseArg (st : TrinityAvailablePower × World) (arg : String) :
    TrinityAvailablePower × World :=
  if arg = "--power-500" then (POWER_500MA, st.2.print "Audio device set to 500mA\n")
  else if arg = "--power-1500" then (POWER_1500MA, st.2.print "Audio device set to 1500mA\n")
  else if arg = "--power-3000" then (POWER_3000MA, st.2.print "Audio device set to 3000mA\n")
  else if arg = "--power-4000" then (POWER_4000MA, st.2.print "Audio device set to 4000mA\n")
  else st

/-- Lines 180-195: `argv[1]`, ..., `argv[argc - 1]` from left to right. -/
def parseArgs (w : World) (argv : List String) : TrinityAvailablePower × World :=
  (argv.drop 1).foldl parseArg (POWER_NULL, w)

/-- Lines 240-244. -/
def usb_cleanup (w : World) : Int × World :=
  (EXIT_FAILURE, ((w.call .close).call (.release_interface 0)).call .exit)

/-- Lines 218-238, with a device handle in hand. -/
def configure (usb : Libusb) (w : World) (availablePower : TrinityAvailablePower) :
    Int × World :=
  let r := disablePlugin usb w
  if r.1 ≠ 0 then usb_cleanup (r.2.eprint "Error while disabling plugin.\n")
  else
  let r := downloadEQ usb r.2 availablePower
  if r.1 ≠ 0 then
    usb_cleanup (r.2.eprint "Error while downloading EQ to Trinity audio device.\n")
  else
  let r := downloadPlugin usb r.2
  if r.1 ≠ 0 then
    usb_cleanup (r.2.eprint "Error while downloading plugin to Trinity audio device.\n")
  else
  let r := enablePlugin usb r.2
  if r.1 ≠ 0 then usb_cleanup (r.2.eprint "Error while enabling plugin.\n")
  else (EXIT_SUCCESS, (r.2.call .close).call .exit)

/-- Lines 178-245: the exit code and the world the run leaves behind. -/
def main (usb : Libusb) (argv : List String) : Int × World :=
  let p := parseArgs World.empty argv
  if p.1 = POWER_NULL then
    (EXIT_SUCCESS,
      ((((p.2.print "Available power settings :\n").print "\t--power-500\t500mA\n").print
        "\t--power-1500\t1500mA\n").print "\t--power-3000\t3000mA\n").print
        "\t--power-4000\t4000mA\n")
  else
    let w := (p.2.call .init).call (.open_device_with_vid_pid 0x05AC 0x1101)
    if !usb.deviceFound then
      (EXIT_FAILURE, w.eprint "No suitable device found, exiting.\n")
    else configure usb w p.1

/-! ## Reference definitions taken from the claims -/

/-- Reference decoder of a five-byte frame, in the words of the round-trip
law: `v' = f[0]*1024 + f[1]*4 + f[2]`, the coefficient is `v' - 0x40000` when
`v' >= 0x20000` and `v'` otherwise, the address is `f[3]*256 + f[4]`. -/
def decodeSpec (f : List Nat) : Int × Nat :=
  let v' : Int := (f.getD 0 0 : Int) * 1024 + (f.getD 1 0 : Int) * 4 + (f.getD 2 0 : Int)
  (if v' ≥ 0x20000 then v' - 0x40000 else v', f.getD 3 0 * 256 + f.getD 4 0)

/-- Reference frame layout, in the words of the layout claim: the bit fields
of `u = v mod 2^18` and of the address. -/
def frameSpec (a : Nat) (v : Int) : List Nat :=
  let u : Nat := (v % 2 ^ 18).toNat
  [u / 2 ^ 10, (u / 2 ^ 2) % 2 ^ 8, u % 2 ^ 2, (a / 2 ^ 8) % 2 ^ 2, a % 2 ^ 8]

/-! ## Transfers and USB behaviours used in the statements -/

/-- The transfer of `disablePlugin` (line 167). -/
def disableTransfer : ControlTransfer :=
  setMemTransfer [disableplugin_value] 1 V8_PLUGIN_START_ADDR

/-- The transfer of `enablePlugin` (line 171). -/
def enableTransfer : ControlTransfer :=
  setMemTransfer pluginBinary 1 V8_PLUGIN_START_ADDR

/-- The transfer of `downloadPlugin` (line 175). -/
def downloadTransfer : ControlTransfer :=
  setMemTransfer (pluginBinary.drop 1) (toUInt16 pluginBinary.length)
    (toUInt16 (V8_PLUGIN_START_ADDR + 1))

/-- The transfer of `xdfpWrite` for entry `i` of a table, at register address
`XDFP_STARTING_EQ_ADDR + i` (lines 131 and 157). -/
def eqTransfer (table : List Int) (i : Nat) : ControlTransfer :=
  setMemTransfer (xdfpData (XDFP_STARTING_EQ_ADDR + i) (table.getD i 0)) 5 V8_WRITE_START_ADDR

/-- The sixteen EQ transfers of a table, in index order. -/
def eqTransfers (table : List Int) : List ControlTransfer :=
  (List.range EQ_TABLE_SIZE).map (eqTransfer table)

/-- A device that is found and accepts every transfer; a successful control
transfer returns the number of bytes transferred. -/
def usbOk : Libusb :=
  { control_transfer := fun _ t => (t.wLength : Int)
    error_name := fun _ => ""
    deviceFound := true }

/-- A device that is found and fails exactly the transfer issued after `k`
earlier ones, with `LIBUSB_ERROR_IO` (-1). -/
def usbFailAt (k : Nat) : Libusb :=
  { control_transfer := fun h t => if h.length = k then -1 else (t.wLength : Int)
    error_name := fun _ => "LIBUSB_ERROR_IO"
    deviceFound := true }

/-- A device that is found and fails every transfer with `LIBUSB_ERROR_IO`
(-1). -/
def usbFailAll : Libusb :=
  { control_transfer := fun _ _ => -1
    error_name := fun _ => "LIBUSB_ERROR_IO"
    deviceFound := true }

/-- The four arguments the loop of lines 181-195 recognises. -/
def isPowerFlag (arg : String) : Bool :=
  arg = "--power-500" || arg = "--power-1500" || arg = "--power-3000" || arg = "--power-4000"

/-- The four shipped tables, by growing budget. -/
def shippedTables : List (List Int) :=
  [power500mAEQSettings, power1500mAEQSettings, power3AEQSettings, power4AEQSettings]

/-- The indices below `EQ_TABLE_SIZE` at which two tables differ. -/
def differingIndices (s t : List Int) : List Nat :=
  (List.range EQ_TABLE_SIZE).filter (fun i => decide (s[i]? ≠ t[i]?))

/-! ## The encoder -/

theorem and_255 (n : Nat) : n &&& 255 = n % 256 := Nat.and_pow_two_sub_one_eq_mod n 8

theorem and_3 (n : Nat) : n &&& 3 = n % 4 := Nat.and_pow_two_sub_one_eq_mod n 2

theorem toUInt8_land_shiftRight_255 (n k : Nat) :
    toUInt8 (Int.land ((n : Int) >>> k) 0xff) = n / 2 ^ k % 256 := by
  have h : Int.land ((n : Int) >>> k) 0xff = ((n >>> k &&& 255 : Nat) : Int) := rfl
  rw [h, and_255, Nat.shiftRight_eq_div_pow]
  unfold toUInt8
  omega

theorem toUInt8_land_3 (n : Nat) : toUInt8 (Int.land (n : Int) 0x03) = n % 4 := by
  have h : Int.land (n : Int) 0x03 = ((n &&& 3 : Nat) : Int) := rfl
  rw [h, and_3]
  unfold toUInt8
  omega

/-- The frame in terms of division and remainder, once the normalised value is
known to be the natural number `n`. -/
theorem xdfpData_natCast (a n : Nat) (v : Int) (hn : xdfpValue v = (n : Int)) :
    xdfpData a v = [n / 1024 % 256, n / 4 % 256, n % 4, a / 256 % 4, a % 256] := by
  unfold xdfpData
  simp only [hn]
  rw [toUInt8_land_shiftRight_255, toUInt8_land_shiftRight_255, toUInt8_land_3, and_255, and_3,
    Nat.shiftRight_eq_div_pow]
  norm_num

/-- On the signed 18-bit domain the normalised value is `v mod 2^18`. -/
theorem xdfpValue_eq_emod (v : Int) (hlo : -0x20000 ≤ v) (hhi : v ≤ 0x1FFFF) :
    xdfpValue v = (((v % 2 ^ 18).toNat : Nat) : Int) := by
  unfold xdfpValue
  split <;> omega

/-- Frame of an in-range coefficient, in division-and-remainder form. -/
theorem xdfpData_inRange (a : Nat) (v : Int) (hlo : -0x20000 ≤ v) (hhi : v ≤ 0x1FFFF) :
    xdfpData a v =
      [(v % 2 ^ 18).toNat / 1024 % 256, (v % 2 ^ 18).toNat / 4 % 256, (v % 2 ^ 18).toNat % 4,
        a / 256 % 4, a % 256] :=
  xdfpData_natCast a _ v (xdfpValue_eq_emod v hlo hhi)

/-- C1: for a coefficient `v` in [-0x20000, 0x1FFFF] and an address `a` in
[0, 0x3FF], decoding the frame `xdfpWrite` builds for `(a, v)` gives back
`(v, a)`; hence any in-range pair with the same frame is the same pair. -/
theorem xdfpData_roundtrip (v : Int) (a : Nat) (hlo : -0x20000 ≤ v) (hhi : v ≤ 0x1FFFF)
    (ha : a ≤ 0x3FF) :
    decodeSpec (xdfpData a v) = (v, a) ∧
      ∀ (v2 : Int) (a2 : Nat), -0x20000 ≤ v2 → v2 ≤ 0x1FFFF → a2 ≤ 0x3FF →
        xdfpData a2 v2 = xdfpData a v → v2 = v ∧ a2 = a := by
  have key : ∀ (x : Int) (b : Nat), -0x20000 ≤ x → x ≤ 0x1FFFF → b ≤ 0x3FF →
      decodeSpec (xdfpData b x) = (x, b) := by
    intro x b h1 h2 h3
    rw [xdfpData_inRange b x h1 h2]
    simp only [decodeSpec, List.getD_cons_zero, List.getD_cons_succ, Prod.mk.injEq]
    constructor
    · split <;> omega
    · omega
  refine ⟨key v a hlo hhi ha, ?_⟩
  intro v2 a2 h1 h2 h3 heq
  have e := key v2 a2 h1 h2 h3
  rw [heq, key v a hlo hhi ha] at e
  simp only [Prod.mk.injEq] at e
  exact ⟨e.1.symm, e.2.symm⟩

theorem xdfpData_roundtrip_witness :
    decodeSpec (xdfpData 0x5F (-45000)) = (-45000, 0x5F) ∧
      ∀ (v2 : Int) (a2 : Nat), -0x20000 ≤ v2 → v2 ≤ 0x1FFFF → a2 ≤ 0x3FF →
        xdfpData a2 v2 = xdfpData 0x5F (-45000) → v2 = -45000 ∧ a2 = 0x5F :=
  xdfpData_roundtrip (-45000) 0x5F (by decide) (by decide) (by decide)

/-- C2: for a coefficient `v` in [-0x20000, 0x1FFFF] and a 16-bit address `a`,
the frame is `[u / 2^10, (u / 2^2) mod 2^8, u mod 2^2, (a / 2^8) mod 2^2,
a mod 2^8]` with `u = v mod 2^18`, and `u` is `v + 0x40000` for negative `v`
and `v` otherwise. -/
theorem xdfpData_layout (v : Int) (a : Nat) (hlo : -0x20000 ≤ v) (hhi : v ≤ 0x1FFFF)
    (_ha : a < 2 ^ 16) :
    xdfpData a v = frameSpec a v ∧
      ((v % 2 ^ 18).toNat : Int) = (if v < 0 then v + 0x40000 else v) := by
  constructor
  · rw [xdfpData_inRange a v hlo hhi]
    simp only [frameSpec, List.cons.injEq, and_true]
    refine ⟨?_, ?_, ?_, ?_, ?_⟩ <;> omega
  · split <;> omega

theorem xdfpData_layout_witness :
    xdfpData 0x5F (-45000) = frameSpec 0x5F (-45000) ∧
      (((-45000 : Int) % 2 ^ 18).toNat : Int) =
        (if (-45000 : Int) < 0 then (-45000 : Int) + 0x40000 else -45000) :=
  xdfpData_layout (-45000) 0x5F (by decide) (by decide) (by decide)

/-! ## The transport adapter -/

theorem xdfpSetMem_fst (usb : Libusb) (w : World) (buf : List Nat) (length xdfpAddr : Nat) :
    (xdfpSetMem usb w buf length xdfpAddr).1 = 0 := rfl

theorem xdfpSetMem_transfers (usb : Libusb) (w : World) (buf : List Nat)
    (length xdfpAddr : Nat) :
    (xdfpSetMem usb w buf length xdfpAddr).2.transfers =
      w.transfers ++ [setMemTransfer buf length xdfpAddr] := by
  simp only [xdfpSetMem, World.eprint]
  split <;> rfl

theorem xdfpWrite_fst (usb : Libusb) (w : World) (xdfpAddr : Nat) (value : Int) :
    (xdfpWrite usb w xdfpAddr value).1 = 0 := rfl

theorem xdfpWrite_transfers (usb : Libusb) (w : World) (xdfpAddr : Nat) (value : Int) :
    (xdfpWrite usb w xdfpAddr value).2.transfers =
      w.transfers ++ [setMemTransfer (xdfpData xdfpAddr value) 5 V8_WRITE_START_ADDR] :=
  xdfpSetMem_transfers usb w _ _ _

theorem disablePlugin_fst (usb : Libusb) (w : World) : (disablePlugin usb w).1 = 0 := rfl

theorem disablePlugin_transfers (usb : Libusb) (w : World) :
    (disablePlugin usb w).2.transfers = w.transfers ++ [disableTransfer] :=
  xdfpSetMem_transfers usb w _ _ _

theorem enablePlugin_fst (usb : Libusb) (w : World) : (enablePlugin usb w).1 = 0 := rfl

theorem enablePlugin_transfers (usb : Libusb) (w : World) :
    (enablePlugin usb w).2.transfers = w.transfers ++ [enableTransfer] :=
  xdfpSetMem_transfers usb w _ _ _

theorem downloadPlugin_fst (usb : Libusb) (w : World) : (downloadPlugin usb w).1 = 0 := rfl

theorem downloadPlugin_transfers (usb : Libusb) (w : World) :
    (downloadPlugin usb w).2.transfers = w.transfers ++ [downloadTransfer] :=
  xdfpSetMem_transfers usb w _ _ _

/-- A transfer whose length is the size of its buffer sends the buffer. -/
theorem payload_of_length_eq (t : ControlTransfer) (h : t.wLength = t.data.length) :
    t.payload = t.data.map some := by
  unfold ControlTransfer.payload
  rw [h]
  apply List.ext_getElem?
  intro i
  by_cases hi : i < t.data.length
  · simp [hi, List.getElem?_eq_getElem]
  · have hle : t.data.length ≤ i := Nat.le_of_not_lt hi
    simp [List.getElem?_eq_none hle, hle]

/-! ## The EQ download loop -/

/-- The loop from any entry point: with `n` entries left it issues `n`
writes and, when it runs at all, returns the result of the last one, `0`. -/
theorem downloadEQLoop_spec (usb : Libusb) (table : List Int) (n : Nat) :
    ∀ (eqIndex xdfpAddr : Nat) (ret : Int) (w : World),
      eqIndex + n = EQ_TABLE_SIZE → xdfpAddr + n < 65536 →
      (downloadEQLoop usb table eqIndex xdfpAddr ret w).1 = (if n = 0 then ret else 0) ∧
      (downloadEQLoop usb table eqIndex xdfpAddr ret w).2.transfers =
        w.transfers ++ (List.range n).map (fun j =>
          setMemTransfer (xdfpData (xdfpAddr + j) (table.getD (eqIndex + j) 0)) 5
            V8_WRITE_START_ADDR) := by
  induction n with
  | zero =>
    intro eqIndex xdfpAddr ret w hi _
    rw [downloadEQLoop]
    have : ¬ eqIndex < EQ_TABLE_SIZE := by omega
    simp [this]
  | succ n ih =>
    intro eqIndex xdfpAddr ret w hi ha
    rw [downloadEQLoop]
    have hlt : eqIndex < EQ_TABLE_SIZE := by omega
    have hwrap : toUInt16 (xdfpAddr + 1) = xdfpAddr + 1 := by
      unfold toUInt16
      omega
    simp only [hlt, if_true, xdfpWrite_fst, ne_eq, not_true_eq_false, if_false, hwrap]
    obtain ⟨h1, h2⟩ := ih (eqIndex + 1) (xdfpAddr + 1) 0
      (xdfpWrite usb w xdfpAddr (table.getD eqIndex 0)).2 (by omega) (by omega)
    constructor
    · rw [h1]
      split <;> simp
    · rw [h2, xdfpWrite_transfers, List.range_succ_eq_map, List.map_cons, List.map_map,
        List.append_assoc]
      simp only [List.singleton_append, Nat.add_zero, List.cons.injEq, true_and,
        List.append_cancel_left_eq]
      apply List.map_congr_left
      intro j _
      simp only [Function.comp, Nat.succ_eq_add_one]
      rw [show xdfpAddr + 1 + j = xdfpAddr + (j + 1) by omega,
        show eqIndex + 1 + j = eqIndex + (j + 1) by omega]

/-- The value `ret` holds before the loop never reaches the caller. -/
theorem downloadEQLoop_ret (usb : Libusb) (table : List Int) (ret : Int) (w : World) :
    downloadEQLoop usb table 0 XDFP_STARTING_EQ_ADDR ret w =
      downloadEQLoop usb table 0 XDFP_STARTING_EQ_ADDR 0 w := by
  rw [downloadEQLoop, downloadEQLoop.eq_def usb table 0 XDFP_STARTING_EQ_ADDR 0 w]
  simp [EQ_TABLE_SIZE]

theorem downloadEQ_fst (usb : Libusb) (w : World) (p : TrinityAvailablePower) :
    (downloadEQ usb w p).1 = 0 := by
  have h := (downloadEQLoop_spec usb (eqSettings p) 16 0 XDFP_STARTING_EQ_ADDR 0 w rfl
    (by decide)).1
  simpa [downloadEQ] using h

theorem downloadEQ_transfers (usb : Libusb) (w : World) (p : TrinityAvailablePower) :
    (downloadEQ usb w p).2.transfers = w.transfers ++ eqTransfers (eqSettings p) := by
  have h := (downloadEQLoop_spec usb (eqSettings p) 16 0 XDFP_STARTING_EQ_ADDR 0 w rfl
    (by decide)).2
  rw [downloadEQ, h]
  simp only [eqTransfers, EQ_TABLE_SIZE, Nat.zero_add, List.append_cancel_left_eq]
  rfl

/-! ## The configuration sequence -/

theorem parseArg_transfers (st : TrinityAvailablePower × World) (arg : String) :
    (parseArg st arg).2.transfers = st.2.transfers := by
  unfold parseArg
  split_ifs <;> rfl

theorem foldl_parseArg_transfers (args : List String) :
    ∀ st : TrinityAvailablePower × World,
      (args.foldl parseArg st).2.transfers = st.2.transfers := by
  induction args with
  | nil => intro st; rfl
  | cons a rest ih =>
    intro st
    rw [List.foldl_cons, ih, parseArg_transfers]

theorem parseArgs_transfers (w : World) (argv : List String) :
    (parseArgs w argv).2.transfers = w.transfers :=
  foldl_parseArg_transfers _ _

/-- With a device handle in hand, `configure` issues the nineteen transfers in
order and returns `EXIT_SUCCESS`, whatever the transport answers. -/
theorem configure_spec (usb : Libusb) (w : World) (p : TrinityAvailablePower) :
    (configure usb w p).1 = EXIT_SUCCESS ∧
      (configure usb w p).2.transfers =
        w.transfers ++
          disableTransfer :: (eqTransfers (eqSettings p) ++ [downloadTransfer, enableTransfer]) := by
  simp only [configure, disablePlugin_fst, downloadEQ_fst, downloadPlugin_fst, enablePlugin_fst,
    ne_eq, not_true_eq_false, if_false, World.call, enablePlugin_transfers,
    downloadPlugin_transfers, downloadEQ_transfers, disablePlugin_transfers]
  simp

/-- A run with a selected budget and a device that is found. -/
theorem main_spec (usb : Libusb) (argv : List String)
    (hsel : (parseArgs World.empty argv).1 ≠ POWER_NULL) (hdev : usb.deviceFound = true) :
    (main usb argv).1 = EXIT_SUCCESS ∧
      (main usb argv).2.transfers =
        disableTransfer ::
          (eqTransfers (eqSettings (parseArgs World.empty argv).1) ++
            [downloadTransfer, enableTransfer]) := by
  have h := configure_spec usb
    (((parseArgs World.empty argv).2.call .init).call (.open_device_with_vid_pid 0x05AC 0x1101))
    (parseArgs World.empty argv).1
  have ht : (((parseArgs World.empty argv).2.call .init).call
      (.open_device_with_vid_pid 0x05AC 0x1101)).transfers = [] :=
    parseArgs_transfers World.empty argv
  rw [ht, List.nil_append] at h
  simp only [main, hsel, if_false, hdev, Bool.not_true]
  exact h

theorem parseArgs_power500 :
    (parseArgs World.empty ["TrinityEnabler", "--power-500"]).1 = POWER_500MA := by
  decide

theorem eqTransfers_length (table : List Int) : (eqTransfers table).length = 16 := by
  simp [eqTransfers, EQ_TABLE_SIZE]

set_option maxRecDepth 8000

/-! ## The plugin image and the three plugin transfers -/

theorem pluginBinary_length : pluginBinary.length = 212 := rfl

theorem xdfpData_length (a : Nat) (v : Int) : (xdfpData a v).length = 5 := rfl

/-! ## Claims about the EQ download and the order of a run -/

/-- C3: for each of the four power budgets, when every transport call
succeeds, `downloadEQ` returns success and issues exactly 16 transfers; the
i-th has request code 4, destination 0xB042 and as its 5-byte payload the
frame of entry `i` of the budget's table at register address `0x50 + i`, so
the encoded addresses are 0x50, ..., 0x5F in increasing order. -/
theorem downloadEQ_writes_table (usb : Libusb) (w : World) (p : TrinityAvailablePower)
    (table : List Int)
    (hp : (p, table) ∈ [(POWER_500MA, power500mAEQSettings),
      (POWER_1500MA, power1500mAEQSettings), (POWER_3000MA, power3AEQSettings),
      (POWER_4000MA, power4AEQSettings)])
    (_hok : ∀ (h : List ControlTransfer) (t : ControlTransfer), 0 ≤ usb.control_transfer h t) :
    (downloadEQ usb w p).1 = 0 ∧
      table.length = 16 ∧
      (∃ ts : List ControlTransfer,
        (downloadEQ usb w p).2.transfers = w.transfers ++ ts ∧ ts.length = 16 ∧
        ∀ i, i < 16 → ∃ t, ts[i]? = some t ∧
          t.bRequest = 4 ∧ t.wIndex = 0xB042 ∧ t.wLength = 5 ∧
          t.data = xdfpData (0x50 + i) (table.getD i 0) ∧
          t.payload = (xdfpData (0x50 + i) (table.getD i 0)).map some ∧
          (decodeSpec t.data).2 = 0x50 + i) := by
  have htab : eqSettings p = table ∧ table.length = 16 := by
    simp only [List.mem_cons, Prod.mk.injEq, List.mem_singleton, List.not_mem_nil, or_false] at hp
    rcases hp with ⟨rfl, rfl⟩ | ⟨rfl, rfl⟩ | ⟨rfl, rfl⟩ | ⟨rfl, rfl⟩ <;> exact ⟨rfl, rfl⟩
  have haddr : ∀ i, i < 16 → (decodeSpec (xdfpData (0x50 + i) (table.getD i 0))).2 = 0x50 + i := by
    simp only [List.mem_cons, Prod.mk.injEq, List.mem_singleton, List.not_mem_nil, or_false] at hp
    rcases hp with ⟨_, rfl⟩ | ⟨_, rfl⟩ | ⟨_, rfl⟩ | ⟨_, rfl⟩ <;> decide
  refine ⟨downloadEQ_fst usb w p, htab.2, eqTransfers table, ?_, eqTransfers_length table, ?_⟩
  · rw [downloadEQ_transfers, htab.1]
  · intro i hi
    refine ⟨eqTransfer table i, ?_, rfl, rfl, rfl, rfl, ?_, haddr i hi⟩
    · simp [eqTransfers, EQ_TABLE_SIZE, List.getElem?_range, hi]
    · exact payload_of_length_eq _ rfl

theorem downloadEQ_writes_table_witness :
    (downloadEQ usbOk World.empty POWER_4000MA).1 = 0 ∧
      power4AEQSettings.length = 16 ∧
      (∃ ts : List ControlTransfer,
        (downloadEQ usbOk World.empty POWER_4000MA).2.transfers = World.empty.transfers ++ ts ∧
        ts.length = 16 ∧
        ∀ i, i < 16 → ∃ t, ts[i]? = some t ∧
          t.bRequest = 4 ∧ t.wIndex = 0xB042 ∧ t.wLength = 5 ∧
          t.data = xdfpData (0x50 + i) (power4AEQSettings.getD i 0) ∧
          t.payload = (xdfpData (0x50 + i) (power4AEQSettings.getD i 0)).map some ∧
          (decodeSpec t.data).2 = 0x50 + i) :=
  downloadEQ_writes_table usbOk World.empty POWER_4000MA power4AEQSettings (by decide)
    (fun _ t => Int.ofNat_nonneg t.wLength)

/-- C4: for an argument list that selects a power budget, with the device
found and every transport call succeeding, `main` issues exactly the Disable
transfer, the 16 EQ transfers of the selected table in index order, the
Download transfer and the Enable transfer (19 transfers, no two equal), and
returns `EXIT_SUCCESS`. -/
theorem main_success_order (usb : Libusb) (argv : List String) (p : TrinityAvailablePower)
    (hp : (parseArgs World.empty argv).1 = p) (hsel : p ≠ POWER_NULL)
    (hdev : usb.deviceFound = true)
    (_hok : ∀ (h : List ControlTransfer) (t : ControlTransfer), 0 ≤ usb.control_transfer h t) :
    (main usb argv).1 = EXIT_SUCCESS ∧
      (main usb argv).2.transfers =
        [disableTransfer] ++ (List.range 16).map (eqTransfer (eqSettings p)) ++
          [downloadTransfer] ++ [enableTransfer] ∧
      (main usb argv).2.transfers.length = 19 ∧
      (main usb argv).2.transfers.Nodup := by
  subst hp
  obtain ⟨h1, h2⟩ := main_spec usb argv hsel hdev
  have hlist : (main usb argv).2.transfers =
      [disableTransfer] ++ (List.range 16).map (eqTransfer (eqSettings (parseArgs World.empty argv).1))
        ++ [downloadTransfer] ++ [enableTransfer] := by
    rw [h2]
    simp [eqTransfers, EQ_TABLE_SIZE]
  refine ⟨h1, hlist, ?_, ?_⟩
  · rw [hlist]
    simp
  · rw [hlist]
    have hcases : ∀ q : TrinityAvailablePower,
        eqSettings q = power4AEQSettings ∨ eqSettings q = power3AEQSettings ∨
          eqSettings q = power1500mAEQSettings ∨ eqSettings q = power500mAEQSettings := by
      intro q
      unfold eqSettings
      split_ifs <;> simp
    rcases hcases (parseArgs World.empty argv).1 with h | h | h | h <;> rw [h] <;> decide

theorem main_success_order_witness :
    (main usbOk ["TrinityEnabler", "--power-500"]).1 = EXIT_SUCCESS ∧
      (main usbOk ["TrinityEnabler", "--power-500"]).2.transfers =
        [disableTransfer] ++ (List.range 16).map (eqTransfer (eqSettings POWER_500MA)) ++
          [downloadTransfer] ++ [enableTransfer] ∧
      (main usbOk ["TrinityEnabler", "--power-500"]).2.transfers.length = 19 ∧
      (main usbOk ["TrinityEnabler", "--power-500"]).2.transfers.Nodup :=
  main_success_order usbOk ["TrinityEnabler", "--power-500"] POWER_500MA (by decide) (by decide)
    rfl (fun _ t => Int.ofNat_nonneg t.wLength)

/-! ## Claims about the plugin transfers -/

/-- C5 (what the code does): `downloadPlugin` issues one transfer to 0x8121
whose buffer starts at `pluginBinary[1]`, holding the 211 bytes that remain in
the image, but whose length is `sizeof(pluginBinary)` = 212, not 211: the
payload is `image[1..211]` followed by one byte read past the end of the
image. -/
theorem downloadPlugin_reads_past_image (usb : Libusb) (w : World) :
    (downloadPlugin usb w).2.transfers = w.transfers ++ [downloadTransfer] ∧
      downloadTransfer.wIndex = 0x8121 ∧
      downloadTransfer.wLength = 212 ∧
      pluginBinary.length - 1 = 211 ∧
      downloadTransfer.data = pluginBinary.drop 1 ∧
      downloadTransfer.data.length = 211 ∧
      downloadTransfer.payload = (pluginBinary.drop 1).map some ++ [none] :=
  ⟨downloadPlugin_transfers usb w, rfl, rfl, rfl, rfl, rfl, rfl⟩

/-- C6: `enablePlugin` and `disablePlugin` each issue exactly one transfer,
whatever the transport answers: request code 4, destination 0x8120, length 1,
payload `[image[0]]` = `[0xBF]` for Enable and `[sentinel]` = `[0xBA]` for
Disable. -/
theorem enable_disable_single_byte (usb : Libusb) (w : World) :
    (∃ t, (enablePlugin usb w).2.transfers = w.transfers ++ [t] ∧
      t.bRequest = 4 ∧ t.wIndex = 0x8120 ∧ t.wLength = 1 ∧
      t.payload = [pluginBinary[0]?] ∧ t.payload = [some 0xBF]) ∧
    (∃ t, (disablePlugin usb w).2.transfers = w.transfers ++ [t] ∧
      t.bRequest = 4 ∧ t.wIndex = 0x8120 ∧ t.wLength = 1 ∧
      t.payload = [some disableplugin_value] ∧ t.payload = [some 0xBA]) :=
  ⟨⟨enableTransfer, enablePlugin_transfers usb w, rfl, rfl, rfl, rfl, rfl⟩,
    ⟨disableTransfer, disablePlugin_transfers usb w, rfl, rfl, rfl, rfl, rfl⟩⟩

/-! ## Claims about transport failures -/

/-- C7 (what the code does): with a transport whose first control transfer
fails with -1, `xdfpSetMem` logs the error on stderr and returns 0; so do
`disablePlugin`, `downloadPlugin`, `enablePlugin` and `xdfpWrite`. -/
theorem xdfpSetMem_failure_returns_zero :
    (usbFailAt 0).control_transfer World.empty.transfers
        (setMemTransfer [disableplugin_value] 1 V8_PLUGIN_START_ADDR) < 0 ∧
      (xdfpSetMem (usbFailAt 0) World.empty [disableplugin_value] 1 V8_PLUGIN_START_ADDR).1 = 0 ∧
      (xdfpSetMem (usbFailAt 0) World.empty [disableplugin_value] 1
        V8_PLUGIN_START_ADDR).2.stderr =
          ["xdfpSetMem: libusb_control_transfer error LIBUSB_ERROR_IO\n"] ∧
      (disablePlugin (usbFailAt 0) World.empty).1 = 0 ∧
      (downloadPlugin (usbFailAt 0) World.empty).1 = 0 ∧
      (enablePlugin (usbFailAt 0) World.empty).1 = 0 ∧
      (xdfpWrite (usbFailAt 0) World.empty 0x50 228).1 = 0 :=
  ⟨by decide, rfl, by decide, rfl, rfl, rfl, rfl⟩

/-- C8 (what the code does): with `--power-500`, the device found and the
Disable transfer failing, `main` still issues the 16 EQ writes, the Download
and the Enable, and returns `EXIT_SUCCESS`. -/
theorem main_continues_after_failed_disable :
    (parseArgs World.empty ["TrinityEnabler", "--power-500"]).1 = POWER_500MA ∧
      (usbFailAt 0).deviceFound = true ∧
      (usbFailAt 0).control_transfer [] disableTransfer < 0 ∧
      (main (usbFailAt 0) ["TrinityEnabler", "--power-500"]).2.transfers =
        disableTransfer :: (eqTransfers power500mAEQSettings ++
          [downloadTransfer, enableTransfer]) ∧
      (main (usbFailAt 0) ["TrinityEnabler", "--power-500"]).2.transfers.length = 19 ∧
      (main (usbFailAt 0) ["TrinityEnabler", "--power-500"]).1 = EXIT_SUCCESS := by
  obtain ⟨h1, h2⟩ := main_spec (usbFailAt 0) ["TrinityEnabler", "--power-500"]
    (by decide) rfl
  refine ⟨by decide, rfl, by decide, ?_, ?_, h1⟩
  · rw [h2, parseArgs_power500]
    rfl
  · rw [h2]
    simp [eqTransfers_length]

/-- C9 (what the code does): with the 500mA table, EQ entries 0..2 accepted
and the write of entry 3 failing, `downloadEQ` still issues all 16 writes,
entries 4..15 included, and returns 0; a run of `main` with the same failure
goes on to the Download and the Enable. -/
theorem downloadEQ_continues_after_failed_write :
    (∀ i, i < 3 → 0 ≤ (usbFailAt 3).control_transfer
      ((eqTransfers power500mAEQSettings).take i) (eqTransfer power500mAEQSettings i)) ∧
      (usbFailAt 3).control_transfer ((eqTransfers power500mAEQSettings).take 3)
        (eqTransfer power500mAEQSettings 3) < 0 ∧
      (downloadEQ (usbFailAt 3) World.empty POWER_500MA).1 = 0 ∧
      (downloadEQ (usbFailAt 3) World.empty POWER_500MA).2.transfers =
        eqTransfers power500mAEQSettings ∧
      (downloadEQ (usbFailAt 3) World.empty POWER_500MA).2.transfers.length = 16 ∧
      (usbFailAt 4).control_transfer
        (disableTransfer :: (eqTransfers power500mAEQSettings).take 3)
        (eqTransfer power500mAEQSettings 3) < 0 ∧
      (main (usbFailAt 4) ["TrinityEnabler", "--power-500"]).2.transfers =
        disableTransfer :: (eqTransfers power500mAEQSettings ++
          [downloadTransfer, enableTransfer]) := by
  have ht := downloadEQ_transfers (usbFailAt 3) World.empty POWER_500MA
  have hm := (main_spec (usbFailAt 4) ["TrinityEnabler", "--power-500"] (by decide) rfl).2
  refine ⟨by decide, by decide, downloadEQ_fst _ _ _, ?_, ?_, by decide, ?_⟩
  · rw [ht]
    rfl
  · rw [ht]
    simp [World.empty, eqTransfers_length]
  · rw [hm, parseArgs_power500]
    rfl

/-- C10 (what the code does): with `--power-500`, the device found and the
transport call of the Download transfer failing, `main` still issues the
Enable transfer as its next and last transfer. -/
theorem main_enables_after_failed_download :
    (usbFailAt 17).control_transfer (disableTransfer :: eqTransfers power500mAEQSettings)
        downloadTransfer < 0 ∧
      (main (usbFailAt 17) ["TrinityEnabler", "--power-500"]).2.transfers =
        (disableTransfer :: eqTransfers power500mAEQSettings) ++
          [downloadTransfer] ++ [enableTransfer] ∧
      (main (usbFailAt 17) ["TrinityEnabler", "--power-500"]).2.transfers.getLast? =
        some enableTransfer := by
  have hm := (main_spec (usbFailAt 17) ["TrinityEnabler", "--power-500"] (by decide) rfl).2
  rw [parseArgs_power500] at hm
  have hs : eqSettings POWER_500MA = power500mAEQSettings := rfl
  rw [hs] at hm
  have hl : (main (usbFailAt 17) ["TrinityEnabler", "--power-500"]).2.transfers =
      (disableTransfer :: eqTransfers power500mAEQSettings) ++
        [downloadTransfer] ++ [enableTransfer] := by
    rw [hm]
    simp
  refine ⟨by decide, hl, ?_⟩
  rw [hl]
  exact List.getLast?_concat _

/-! ## Claims about the exit code and the tables -/

/-- C11 (what the code does): with `--power-500`, the device found and the
transport call of the Enable step failing, `main` returns `EXIT_SUCCESS`; it
does so as well when every transport call fails. -/
theorem main_exit_success_after_failed_transfer :
    (usbFailAt 18).control_transfer
        ((disableTransfer :: eqTransfers power500mAEQSettings) ++ [downloadTransfer])
        enableTransfer < 0 ∧
      (main (usbFailAt 18) ["TrinityEnabler", "--power-500"]).1 = EXIT_SUCCESS ∧
      (∀ (h : List ControlTransfer) (t : ControlTransfer),
        usbFailAll.control_transfer h t < 0) ∧
      (main usbFailAll ["TrinityEnabler", "--power-500"]).1 = EXIT_SUCCESS :=
  ⟨by decide,
    (main_spec (usbFailAt 18) ["TrinityEnabler", "--power-500"] (by decide) rfl).1,
    fun _ _ => show (-1 : Int) < 0 by decide,
    (main_spec usbFailAll ["TrinityEnabler", "--power-500"] (by decide) rfl).1⟩

/-- C12 (as stated, refuted): the tables selected for `POWER_4000MA` and
`POWER_500MA` are not equal at every index 0..14: at index 9 they hold -5136
and -5137. -/
theorem tables_4000_500_not_equal_below_15 :
    (eqSettings POWER_4000MA)[9]? = some (-5136) ∧
      (eqSettings POWER_500MA)[9]? = some (-5137) ∧
      ¬ (∀ i, i < 15 → (eqSettings POWER_4000MA)[i]? = (eqSettings POWER_500MA)[i]?) := by
  refine ⟨rfl, rfl, ?_⟩
  intro h
  exact absurd (h 9 (by decide)) (by decide)

/-- C12 (amended): the tables selected for `POWER_4000MA` and `POWER_500MA`
differ at exactly the indices 9 (-5136 versus -5137) and 15 (-45000 versus
-8000), and are equal at every other index 0..14. -/
theorem tables_4000_500_differ_at_9_and_15 :
    differingIndices (eqSettings POWER_4000MA) (eqSettings POWER_500MA) = [9, 15] ∧
      (eqSettings POWER_4000MA)[9]? = some (-5136) ∧
      (eqSettings POWER_500MA)[9]? = some (-5137) ∧
      (eqSettings POWER_4000MA)[15]? = some (-45000) ∧
      (eqSettings POWER_500MA)[15]? = some (-8000) ∧
      (List.range 15).filter
        (fun i => decide ((eqSettings POWER_4000MA)[i]? = (eqSettings POWER_500MA)[i]?)) =
        [0, 1, 2, 3, 4, 5, 6, 7, 8, 10, 11, 12, 13, 14] := by
  decide

/-- C13 (as stated, refuted): the normalised value of -45000 is not 0x34F38,
and the frame for coefficient -45000 at address 0x5F is not
`[0xD3, 0xCE, 0x00, 0x00, 0x5F]`. -/
theorem xdfpData_example_not_as_stated :
    xdfpValue (-45000) ≠ 0x34F38 ∧
      xdfpData 0x5F (-45000) ≠ [0xD3, 0xCE, 0x00, 0x00, 0x5F] := by
  decide

/-- C13 (amended): for coefficient -45000 and address 0x5F (the last entry of
the 4000mA table at the last EQ address) the normalised value is
-45000 + 0x40000 = 217144 = 0x35038 and the frame is
`[(0x35038 >> 10) & 0xFF, (0x35038 >> 2) & 0xFF, 0x35038 & 0x03,
(0x5F >> 8) & 0x03, 0x5F & 0xFF]` = `[0xD4, 0x0E, 0x00, 0x00, 0x5F]`. -/
theorem xdfpData_example :
    power4AEQSettings[15]? = some (-45000) ∧
      XDFP_STARTING_EQ_ADDR + 15 = 0x5F ∧
      xdfpValue (-45000) = 0x35038 ∧
      xdfpData 0x5F (-45000) =
        [(0x35038 >>> 10) &&& 0xFF, (0x35038 >>> 2) &&& 0xFF, 0x35038 &&& 0x03,
          (0x5F >>> 8) &&& 0x03, 0x5F &&& 0xFF] ∧
      xdfpData 0x5F (-45000) = [0xD4, 0x0E, 0x00, 0x00, 0x5F] ∧
      (eqTransfer power4AEQSettings 15).data = [0xD4, 0x0E, 0x00, 0x00, 0x5F] := by
  decide

/-! ## The argument loop -/

theorem parseArg_of_not_flag (st : TrinityAvailablePower × World) (arg : String)
    (h : isPowerFlag arg = false) : parseArg st arg = st := by
  simp only [isPowerFlag, Bool.or_eq_false_iff, decide_eq_false_iff_not] at h
  obtain ⟨⟨⟨h1, h2⟩, h3⟩, h4⟩ := h
  simp [parseArg, h1, h2, h3, h4]

theorem foldl_parseArg_filter (args : List String) :
    ∀ st : TrinityAvailablePower × World,
      (args.filter isPowerFlag).foldl parseArg st = args.foldl parseArg st := by
  induction args with
  | nil => intro st; rfl
  | cons a rest ih =>
    intro st
    cases hflag : isPowerFlag a with
    | true => rw [List.filter_cons_of_pos hflag, List.foldl_cons, List.foldl_cons, ih]
    | false =>
      rw [List.filter_cons_of_neg (by simp [hflag]), List.foldl_cons,
        parseArg_of_not_flag st a hflag, ih]

theorem foldl_parseArg_no_flag (args : List String) :
    ∀ st : TrinityAvailablePower × World,
      (∀ a ∈ args, isPowerFlag a = false) → args.foldl parseArg st = st := by
  induction args with
  | nil => intro st _; rfl
  | cons a rest ih =>
    intro st h
    rw [List.foldl_cons, parseArg_of_not_flag st a (h a (List.mem_cons_self a rest))]
    exact ih st (fun b hb => h b (List.mem_cons_of_mem a hb))

/-- Dropping the unrecognised arguments after `argv[0]` changes nothing in the
result of the argument loop. -/
theorem parseArgs_filter (w : World) (argv : List String) :
    parseArgs w (argv.take 1 ++ (argv.drop 1).filter isPowerFlag) = parseArgs w argv := by
  unfold parseArgs
  cases argv with
  | nil => rfl
  | cons a rest =>
    simp only [List.take_succ_cons, List.take_zero, List.drop_succ_cons, List.drop_zero,
      List.singleton_append]
    exact foldl_parseArg_filter rest _

/-- With no budget selected `main` prints the usage text and leaves. -/
theorem main_of_power_null (usb : Libusb) (argv : List String)
    (h : (parseArgs World.empty argv).1 = POWER_NULL) :
    (main usb argv).1 = EXIT_SUCCESS ∧ (main usb argv).2.transfers = [] ∧
      (main usb argv).2.libusb = (parseArgs World.empty argv).2.libusb := by
  have ht := parseArgs_transfers World.empty argv
  simp only [main, h, if_true, World.print]
  exact ⟨trivial, ht, trivial⟩

/-- C14: when none of the arguments `argv[1..]` is one of `--power-500`,
`--power-1500`, `--power-3000`, `--power-4000`, `main` issues no USB transfer
and returns `EXIT_SUCCESS`; and for every argument list, removing the
arguments that are not one of the four flags changes neither the selected
budget nor the transfers issued. -/
theorem main_without_budget (usb : Libusb) (argv : List String) :
    ((∀ a ∈ argv.drop 1, isPowerFlag a = false) →
      (main usb argv).2.transfers = [] ∧ (main usb argv).1 = EXIT_SUCCESS) ∧
    (parseArgs World.empty (argv.take 1 ++ (argv.drop 1).filter isPowerFlag)).1 =
      (parseArgs World.empty argv).1 ∧
    (main usb (argv.take 1 ++ (argv.drop 1).filter isPowerFlag)).2.transfers =
      (main usb argv).2.transfers := by
  refine ⟨?_, ?_, ?_⟩
  · intro h
    have hnull : (parseArgs World.empty argv).1 = POWER_NULL := by
      unfold parseArgs
      rw [foldl_parseArg_no_flag _ _ h]
    obtain ⟨h1, h2, _⟩ := main_of_power_null usb argv hnull
    exact ⟨h2, h1⟩
  · rw [parseArgs_filter]
  · simp only [main, parseArgs_filter]

theorem main_without_budget_witness :
    ((main usbOk ["TrinityEnabler", "--verbose", "--power-9000"]).2.transfers = [] ∧
        (main usbOk ["TrinityEnabler", "--verbose", "--power-9000"]).1 = EXIT_SUCCESS) ∧
      (main usbOk (["TrinityEnabler", "--verbose", "--power-3000", "-x"].take 1 ++
          (["TrinityEnabler", "--verbose", "--power-3000", "-x"].drop 1).filter
            isPowerFlag)).2.transfers =
        (main usbOk ["TrinityEnabler", "--verbose", "--power-3000", "-x"]).2.transfers :=
  ⟨(main_without_budget usbOk ["TrinityEnabler", "--verbose", "--power-9000"]).1 (by decide),
    (main_without_budget usbOk ["TrinityEnabler", "--verbose", "--power-3000", "-x"]).2.2⟩

/-! ## Claims about the tables and the address field -/

theorem eqSettings_mem (p : TrinityAvailablePower) : eqSettings p ∈ shippedTables := by
  unfold eqSettings shippedTables
  split_ifs <;> simp

/-- C15: each of the four EQ tables has exactly 16 entries, so every index
0..15 read by `downloadEQ` is in bounds, and every entry of every table lies
in [-0x20000, 0x1FFFF]; the table `downloadEQ` reads is always one of the
four. -/
theorem tables_complete_and_encodable (table : List Int) (i : Nat)
    (hmem : table ∈ [power4AEQSettings, power3AEQSettings, power1500mAEQSettings,
      power500mAEQSettings])
    (hi : i < EQ_TABLE_SIZE) :
    table.length = 16 ∧
      (∃ c, table[i]? = some c ∧ table.getD i 0 = c ∧ -0x20000 ≤ c ∧ c ≤ 0x1FFFF) ∧
      (∀ c ∈ table, -0x20000 ≤ c ∧ c ≤ 0x1FFFF) ∧
      (∀ p : TrinityAvailablePower,
        eqSettings p ∈ [power4AEQSettings, power3AEQSettings, power1500mAEQSettings,
          power500mAEQSettings]) := by
  have hall : ∀ t ∈ [power4AEQSettings, power3AEQSettings, power1500mAEQSettings,
      power500mAEQSettings],
      t.length = 16 ∧
        (∀ j, j < 16 → ∃ c, t[j]? = some c ∧ t.getD j 0 = c ∧ -0x20000 ≤ c ∧ c ≤ 0x1FFFF) ∧
        (∀ c ∈ t, -0x20000 ≤ c ∧ c ≤ 0x1FFFF) := by
    decide
  obtain ⟨h1, h2, h3⟩ := hall table hmem
  refine ⟨h1, h2 i hi, h3, ?_⟩
  intro p
  unfold eqSettings
  split_ifs <;> simp

theorem tables_complete_and_encodable_witness :
    power4AEQSettings.length = 16 ∧
      (∃ c, power4AEQSettings[15]? = some c ∧ power4AEQSettings.getD 15 0 = c ∧
        -0x20000 ≤ c ∧ c ≤ 0x1FFFF) ∧
      (∀ c ∈ power4AEQSettings, -0x20000 ≤ c ∧ c ≤ 0x1FFFF) ∧
      (∀ p : TrinityAvailablePower,
        eqSettings p ∈ [power4AEQSettings, power3AEQSettings, power1500mAEQSettings,
          power500mAEQSettings]) :=
  tables_complete_and_encodable power4AEQSettings 15 (by decide) (by decide)

/-- C16: for every coefficient `v` and every 16-bit address `a`, the frame for
`(v, a)` equals the frame for `(v, a mod 0x400)`; its fourth byte is at most
3; and for an address in 0x50..0x5F the fourth byte is 0 and the fifth is
`a`. -/
theorem xdfpData_address_masked (v : Int) (a : Nat) (_ha : a < 2 ^ 16) :
    xdfpData a v = xdfpData (a % 0x400) v ∧
      (∃ f0 f1 f2 f3 f4, xdfpData a v = [f0, f1, f2, f3, f4] ∧ f3 ≤ 3 ∧
        (0x50 ≤ a → a ≤ 0x5F → f3 = 0 ∧ f4 = a)) := by
  have h3 : (a >>> 8) &&& 0x03 = a / 256 % 4 := by
    rw [and_3, Nat.shiftRight_eq_div_pow]
  have h4 : a &&& 0xff = a % 256 := and_255 a
  have h3m : ((a % 0x400) >>> 8) &&& 0x03 = a / 256 % 4 := by
    rw [and_3, Nat.shiftRight_eq_div_pow]
    omega
  have h4m : (a % 0x400) &&& 0xff = a % 256 := by
    rw [and_255]
    omega
  constructor
  · simp only [xdfpData, h3, h4, h3m, h4m]
  · refine ⟨_, _, _, _, _, rfl, ?_, ?_⟩
    · rw [h3]
      omega
    · intro hlo hhi
      rw [h3, h4]
      omega

theorem xdfpData_address_masked_witness :
    xdfpData 0x45F (-45000) = xdfpData (0x45F % 0x400) (-45000) ∧
      (∃ f0 f1 f2 f3 f4, xdfpData 0x45F (-45000) = [f0, f1, f2, f3, f4] ∧ f3 ≤ 3 ∧
        (0x50 ≤ 0x45F → 0x45F ≤ 0x5F → f3 = 0 ∧ f4 = 0x45F)) :=
  xdfpData_address_masked (-45000) 0x45F (by decide)

/-- C17: for `POWER_NULL` and for every power value that is none of
`POWER_500MA`, `POWER_1500MA`, `POWER_3000MA`, `POWER_4000MA`, `downloadEQ`
does exactly what it does for `POWER_500MA`: it returns 0 and issues the 16
writes of the 500mA table. -/
theorem downloadEQ_default_500 (usb : Libusb) (w : World) (p : TrinityAvailablePower)
    (hp : p ∉ [POWER_500MA, POWER_1500MA, POWER_3000MA, POWER_4000MA]) :
    downloadEQ usb w p = downloadEQ usb w POWER_500MA ∧
      (downloadEQ usb w p).1 = 0 ∧
      (downloadEQ usb w p).2.transfers = w.transfers ++ eqTransfers power500mAEQSettings ∧
      (eqTransfers power500mAEQSettings).length = 16 := by
  simp only [List.mem_cons, List.mem_singleton, List.not_mem_nil, or_false, not_or] at hp
  obtain ⟨_, h2, h3, h4⟩ := hp
  have ht : eqSettings p = power500mAEQSettings := by
    simp [eqSettings, h2, h3, h4]
  refine ⟨?_, downloadEQ_fst usb w p, ?_, eqTransfers_length _⟩
  · simp only [downloadEQ, ht]
    rfl
  · rw [downloadEQ_transfers, ht]

theorem downloadEQ_default_500_witness :
    downloadEQ usbOk World.empty POWER_NULL = downloadEQ usbOk World.empty POWER_500MA ∧
      (downloadEQ usbOk World.empty POWER_NULL).1 = 0 ∧
      (downloadEQ usbOk World.empty POWER_NULL).2.transfers =
        World.empty.transfers ++ eqTransfers power500mAEQSettings ∧
      (eqTransfers power500mAEQSettings).length = 16 :=
  downloadEQ_default_500 usbOk World.empty POWER_NULL (by decide)

/-! ## Outside the signed 18-bit domain -/

theorem toUInt8_lt (x : Int) : toUInt8 x < 256 := by
  unfold toUInt8
  omega

/-- Whatever the coefficient, the reference decoder returns a value of the
signed 18-bit domain. -/
theorem decodeSpec_xdfpData_range (a : Nat) (v : Int) :
    -0x20000 ≤ (decodeSpec (xdfpData a v)).1 ∧ (decodeSpec (xdfpData a v)).1 ≤ 0x1FFFF := by
  simp only [decodeSpec, xdfpData, List.getD_cons_zero, List.getD_cons_succ]
  have h0 := toUInt8_lt (Int.land (xdfpValue v >>> (10 : Nat)) 0xff)
  have h1 := toUInt8_lt (Int.land (xdfpValue v >>> (2 : Nat)) 0xff)
  have h2 := toUInt8_lt (Int.land (xdfpValue v) 0x03)
  generalize toUInt8 (Int.land (xdfpValue v >>> (10 : Nat)) 0xff) = f0 at h0 ⊢
  generalize toUInt8 (Int.land (xdfpValue v >>> (2 : Nat)) 0xff) = f1 at h1 ⊢
  generalize toUInt8 (Int.land (xdfpValue v) 0x03) = f2 at h2 ⊢
  split <;> omega

/-- C19: for `v` in [0x20000, 0x3FFFF] and any address the frame for `v` is
the frame for `v - 0x40000`, a different coefficient of [-0x20000, 0x3FFFF],
and decoding it does not give back `v`; the round trip can hold only for a
coefficient in [-0x20000, 0x1FFFF]; and for a negative 32-bit value the
normalisation `value + 0x40000` stays within the 32-bit range. -/
theorem xdfpData_collides_above_domain (v : Int) (a : Nat) (hlo : 0x20000 ≤ v)
    (hhi : v ≤ 0x3FFFF) :
    xdfpData a v = xdfpData a (v - 0x40000) ∧
      (v - 0x40000 ≠ v ∧ -0x20000 ≤ v - 0x40000 ∧ v - 0x40000 ≤ 0x3FFFF) ∧
      decodeSpec (xdfpData a v) ≠ (v, a) ∧
      (∀ (x : Int) (b : Nat), decodeSpec (xdfpData b x) = (x, b) →
        -0x20000 ≤ x ∧ x ≤ 0x1FFFF) ∧
      (∀ value : Int, -2 ^ 31 ≤ value → value < 0 →
        xdfpValue value = value + 0x40000 ∧
          -2 ^ 31 ≤ value + 0x40000 ∧ value + 0x40000 ≤ 2 ^ 31 - 1) := by
  have hround : ∀ (x : Int) (b : Nat), decodeSpec (xdfpData b x) = (x, b) →
      -0x20000 ≤ x ∧ x ≤ 0x1FFFF := by
    intro x b h
    have hr := decodeSpec_xdfpData_range b x
    rw [h] at hr
    exact hr
  refine ⟨?_, ⟨by omega, by omega, by omega⟩, ?_, hround, ?_⟩
  · have hv : xdfpValue (v - 0x40000) = xdfpValue v := by
      unfold xdfpValue
      split <;> split <;> omega
    simp only [xdfpData, hv]
  · intro h
    have := (hround v a h).2
    omega
  · intro value h1 h2
    refine ⟨?_, by omega, by omega⟩
    unfold xdfpValue
    split <;> omega

theorem xdfpData_collides_above_domain_witness :
    xdfpData 0x5F 0x35038 = xdfpData 0x5F (0x35038 - 0x40000) ∧
      ((0x35038 : Int) - 0x40000 ≠ 0x35038 ∧ -0x20000 ≤ (0x35038 : Int) - 0x40000 ∧
        (0x35038 : Int) - 0x40000 ≤ 0x3FFFF) ∧
      decodeSpec (xdfpData 0x5F 0x35038) ≠ (0x35038, 0x5F) ∧
      (∀ (x : Int) (b : Nat), decodeSpec (xdfpData b x) = (x, b) →
        -0x20000 ≤ x ∧ x ≤ 0x1FFFF) ∧
      (∀ value : Int, -2 ^ 31 ≤ value → value < 0 →
        xdfpValue value = value + 0x40000 ∧
          -2 ^ 31 ≤ value + 0x40000 ∧ value + 0x40000 ≤ 2 ^ 31 - 1) :=
  xdfpData_collides_above_domain 0x35038 0x5F (by decide) (by decide)

/-! ## How the tables relate -/

theorem eqTransfers_injective_on_shipped :
    ∀ s ∈ shippedTables, ∀ t ∈ shippedTables, eqTransfers s = eqTransfers t → s = t := by
  decide

/-- C20: the 500mA, 1500mA and 3000mA tables are equal at every index 0..14;
the 4000mA table differs from each of them at exactly the indices 9 (-5136
versus -5137) and 15; the 16th coefficients -8000, -20000, -42000, -45000 (by
growing budget) are pairwise distinct and strictly decreasing; and two
different budgets give different EQ downloads. -/
theorem tables_relation (usb : Libusb) (w : World) (p q : TrinityAvailablePower)
    (hp : p ∈ [POWER_500MA, POWER_1500MA, POWER_3000MA, POWER_4000MA])
    (hq : q ∈ [POWER_500MA, POWER_1500MA, POWER_3000MA, POWER_4000MA]) (hne : p ≠ q) :
    (power500mAEQSettings.take 15 = power1500mAEQSettings.take 15 ∧
        power1500mAEQSettings.take 15 = power3AEQSettings.take 15) ∧
      (differingIndices power4AEQSettings power500mAEQSettings = [9, 15] ∧
        differingIndices power4AEQSettings power1500mAEQSettings = [9, 15] ∧
        differingIndices power4AEQSettings power3AEQSettings = [9, 15]) ∧
      (power4AEQSettings[9]? = some (-5136) ∧ power500mAEQSettings[9]? = some (-5137) ∧
        power1500mAEQSettings[9]? = some (-5137) ∧ power3AEQSettings[9]? = some (-5137)) ∧
      (shippedTables.map (fun t => t.getD 15 0) = [-8000, -20000, -42000, -45000] ∧
        ([-8000, -20000, -42000, -45000] : List Int).Nodup ∧
        ([-8000, -20000, -42000, -45000] : List Int).Pairwise (fun x y => y < x)) ∧
      eqSettings p ≠ eqSettings q ∧
      (downloadEQ usb w p).2.transfers ≠ (downloadEQ usb w q).2.transfers := by
  have hall : ∀ x ∈ [POWER_500MA, POWER_1500MA, POWER_3000MA, POWER_4000MA],
      ∀ y ∈ [POWER_500MA, POWER_1500MA, POWER_3000MA, POWER_4000MA],
        x ≠ y → eqSettings x ≠ eqSettings y := by
    decide
  have htab : eqSettings p ≠ eqSettings q := hall p hp q hq hne
  refine ⟨by decide, by decide, by decide, by decide, htab, ?_⟩
  rw [downloadEQ_transfers, downloadEQ_transfers]
  intro h
  exact htab (eqTransfers_injective_on_shipped _ (eqSettings_mem p) _ (eqSettings_mem q)
    (List.append_cancel_left h))

theorem tables_relation_witness :
    (power500mAEQSettings.take 15 = power1500mAEQSettings.take 15 ∧
        power1500mAEQSettings.take 15 = power3AEQSettings.take 15) ∧
      (differingIndices power4AEQSettings power500mAEQSettings = [9, 15] ∧
        differingIndices power4AEQSettings power1500mAEQSettings = [9, 15] ∧
        differingIndices power4AEQSettings power3AEQSettings = [9, 15]) ∧
      (power4AEQSettings[9]? = some (-5136) ∧ power500mAEQSettings[9]? = some (-5137) ∧
        power1500mAEQSettings[9]? = some (-5137) ∧ power3AEQSettings[9]? = some (-5137)) ∧
      (shippedTables.map (fun t => t.getD 15 0) = [-8000, -20000, -42000, -45000] ∧
        ([-8000, -20000, -42000, -45000] : List Int).Nodup ∧
        ([-8000, -20000, -42000, -45000] : List Int).Pairwise (fun x y => y < x)) ∧
      eqSettings POWER_3000MA ≠ eqSettings POWER_1500MA ∧
      (downloadEQ usbOk World.empty POWER_3000MA).2.transfers ≠
        (downloadEQ usbOk World.empty POWER_1500MA).2.transfers :=
  tables_relation usbOk World.empty POWER_3000MA POWER_1500MA (by decide) (by decide)
    (by decide)

/-! ## The library calls of a run -/

theorem xdfpSetMem_libusb (usb : Libusb) (w : World) (buf : List Nat)
    (length xdfpAddr : Nat) :
    (xdfpSetMem usb w buf length xdfpAddr).2.libusb = w.libusb := by
  simp only [xdfpSetMem, World.eprint]
  split <;> rfl

theorem downloadEQLoop_libusb (usb : Libusb) (table : List Int) (n : Nat) :
    ∀ (eqIndex xdfpAddr : Nat) (ret : Int) (w : World),
      eqIndex + n = EQ_TABLE_SIZE →
      (downloadEQLoop usb table eqIndex xdfpAddr ret w).2.libusb = w.libusb := by
  induction n with
  | zero =>
    intro eqIndex xdfpAddr ret w hi
    rw [downloadEQLoop]
    have : ¬ eqIndex < EQ_TABLE_SIZE := by omega
    simp [this]
  | succ n ih =>
    intro eqIndex xdfpAddr ret w hi
    rw [downloadEQLoop]
    have hlt : eqIndex < EQ_TABLE_SIZE := by omega
    simp only [hlt, if_true, xdfpWrite_fst, ne_eq, not_true_eq_false, if_false]
    rw [ih _ _ _ _ (by omega)]
    exact xdfpSetMem_libusb usb w _ _ _

theorem downloadEQ_libusb (usb : Libusb) (w : World) (p : TrinityAvailablePower) :
    (downloadEQ usb w p).2.libusb = w.libusb :=
  downloadEQLoop_libusb usb (eqSettings p) 16 0 XDFP_STARTING_EQ_ADDR 0 w rfl

theorem parseArg_libusb (st : TrinityAvailablePower × World) (arg : String) :
    (parseArg st arg).2.libusb = st.2.libusb := by
  unfold parseArg
  split_ifs <;> rfl

theorem foldl_parseArg_libusb (args : List String) :
    ∀ st : TrinityAvailablePower × World,
      (args.foldl parseArg st).2.libusb = st.2.libusb := by
  induction args with
  | nil => intro st; rfl
  | cons a rest ih =>
    intro st
    rw [List.foldl_cons, ih, parseArg_libusb]

theorem parseArgs_libusb (w : World) (argv : List String) :
    (parseArgs w argv).2.libusb = w.libusb :=
  foldl_parseArg_libusb _ _

theorem configure_libusb (usb : Libusb) (w : World) (p : TrinityAvailablePower) :
    (configure usb w p).2.libusb = w.libusb ++ [LibusbCall.close, LibusbCall.exit] := by
  simp only [configure, disablePlugin_fst, downloadEQ_fst, downloadPlugin_fst, enablePlugin_fst,
    ne_eq, not_true_eq_false, if_false, World.call]
  rw [show (enablePlugin usb (downloadPlugin usb (downloadEQ usb (disablePlugin usb w).2
      p).2).2).2.libusb = w.libusb from by
    unfold enablePlugin downloadPlugin disablePlugin
    rw [xdfpSetMem_libusb, xdfpSetMem_libusb, downloadEQ_libusb, xdfpSetMem_libusb]]
  simp

/-- The library calls of a whole run, by the three ways it can go. -/
theorem main_libusb (usb : Libusb) (argv : List String) :
    (main usb argv).2.libusb =
      if (parseArgs World.empty argv).1 = POWER_NULL then []
      else if usb.deviceFound then
        [LibusbCall.init, LibusbCall.open_device_with_vid_pid 0x05AC 0x1101,
          LibusbCall.close, LibusbCall.exit]
      else [LibusbCall.init, LibusbCall.open_device_with_vid_pid 0x05AC 0x1101] := by
  have hl : (parseArgs World.empty argv).2.libusb = [] := parseArgs_libusb World.empty argv
  by_cases hsel : (parseArgs World.empty argv).1 = POWER_NULL
  · rw [if_pos hsel, (main_of_power_null usb argv hsel).2.2, hl]
  · rw [if_neg hsel]
    cases hdev : usb.deviceFound with
    | false =>
      simp [main, hsel, hdev, World.eprint, World.call, hl]
    | true =>
      simp only [main, hsel, if_false, hdev, Bool.not_true, Bool.false_eq_true]
      rw [configure_libusb]
      simp [World.call, hl]

/-- The exit code of a whole run: failure exactly when a budget is selected
and the device is not found. -/
theorem main_fst (usb : Libusb) (argv : List String) :
    (main usb argv).1 =
      if (parseArgs World.empty argv).1 ≠ POWER_NULL ∧ usb.deviceFound = false then EXIT_FAILURE
      else EXIT_SUCCESS := by
  by_cases hsel : (parseArgs World.empty argv).1 = POWER_NULL
  · rw [(main_of_power_null usb argv hsel).1]
    simp [hsel]
  · cases hdev : usb.deviceFound with
    | false => simp [main, hsel, hdev]
    | true =>
      rw [(main_spec usb argv hsel hdev).1]
      simp

/-- C18: `xdfpSetMem` returns 0 whatever the control transfer returns; so for
every behaviour of the transport `downloadEQ` issues all 16 writes and
returns 0, and `main`, once a budget is selected and the device is found,
issues all 19 transfers and returns `EXIT_SUCCESS`; no run reaches the
cleanup path (the only caller of `libusb_release_interface`), and a run
returns `EXIT_FAILURE` only when the device is not found. -/
theorem transport_results_ignored (usb : Libusb) (argv : List String)
    (hsel : (parseArgs World.empty argv).1 ≠ POWER_NULL) (hdev : usb.deviceFound = true) :
    (∀ (u : Libusb) (w : World) (buf : List Nat) (length xdfpAddr : Nat),
      (xdfpSetMem u w buf length xdfpAddr).1 = 0) ∧
    (∀ (u : Libusb) (w : World) (p : TrinityAvailablePower),
      (downloadEQ u w p).1 = 0 ∧
        (downloadEQ u w p).2.transfers = w.transfers ++ eqTransfers (eqSettings p) ∧
        (eqTransfers (eqSettings p)).length = 16) ∧
    ((main usb argv).1 = EXIT_SUCCESS ∧
      (main usb argv).2.transfers =
        disableTransfer :: (eqTransfers (eqSettings (parseArgs World.empty argv).1) ++
          [downloadTransfer, enableTransfer]) ∧
      (main usb argv).2.transfers.length = 19 ∧
      (main usb argv).2.libusb =
        [LibusbCall.init, LibusbCall.open_device_with_vid_pid 0x05AC 0x1101,
          LibusbCall.close, LibusbCall.exit]) ∧
    (∀ (u : Libusb) (args : List String),
      LibusbCall.release_interface 0 ∉ (main u args).2.libusb ∧
        ((main u args).1 = EXIT_FAILURE → u.deviceFound = false)) := by
  obtain ⟨h1, h2⟩ := main_spec usb argv hsel hdev
  refine ⟨fun _ _ _ _ _ => rfl,
    fun u w p => ⟨downloadEQ_fst u w p, downloadEQ_transfers u w p, eqTransfers_length _⟩,
    ⟨h1, h2, ?_, ?_⟩, ?_⟩
  · rw [h2]
    simp [eqTransfers_length]
  · rw [main_libusb, if_neg hsel, hdev]
    rfl
  · intro u args
    constructor
    · rw [main_libusb]
      split_ifs <;> simp
    · rw [main_fst]
      split_ifs with h
      · exact fun _ => h.2
      · intro hc
        exact absurd hc (by decide)

theorem transport_results_ignored_witness :
    (∀ (u : Libusb) (w : World) (buf : List Nat) (length xdfpAddr : Nat),
      (xdfpSetMem u w buf length xdfpAddr).1 = 0) ∧
    (∀ (u : Libusb) (w : World) (p : TrinityAvailablePower),
      (downloadEQ u w p).1 = 0 ∧
        (downloadEQ u w p).2.transfers = w.transfers ++ eqTransfers (eqSettings p) ∧
        (eqTransfers (eqSettings p)).length = 16) ∧
    ((main usbFailAll ["TrinityEnabler", "--power-4000"]).1 = EXIT_SUCCESS ∧
      (main usbFailAll ["TrinityEnabler", "--power-4000"]).2.transfers =
        disableTransfer ::
          (eqTransfers
            (eqSettings (parseArgs World.empty ["TrinityEnabler", "--power-4000"]).1) ++
          [downloadTransfer, enableTransfer]) ∧
      (main usbFailAll ["TrinityEnabler", "--power-4000"]).2.transfers.length = 19 ∧
      (main usbFailAll ["TrinityEnabler", "--power-4000"]).2.libusb =
        [LibusbCall.init, LibusbCall.open_device_with_vid_pid 0x05AC 0x1101,
          LibusbCall.close, LibusbCall.exit]) ∧
    (∀ (u : Libusb) (args : List String),
      LibusbCall.release_interface 0 ∉ (main u args).2.libusb ∧
        ((main u args).1 = EXIT_FAILURE → u.deviceFound = false)) :=
  transport_results_ignored usbFailAll ["TrinityEnabler", "--power-4000"] (by decide) rfl

end TrinityEnabler
